import Mathlib

/-!
Verification of the weather-analysis core of the NASA-HACK repository:
the multi-source consensus engine (`weather_analysis/multi_source_service.py`),
the statistical analyzer (`weather_analysis/statistical_analyzer.py`) and the
threshold configuration (`weather_analysis/config.py`).

Modelling conventions (shallow embedding):
* Python floats are embedded as `ℚ` where the source only does field
  arithmetic and comparisons, and as `ℝ` where it takes `exp`, `sqrt` or
  non-integer powers.  A float that can be NaN is `Option ℚ` / `Option ℝ`
  with `none` playing NaN: every pandas comparison with NaN is `False`, and
  NaN propagates through numpy arithmetic, which the helpers below mirror.
* A pandas DataFrame is a list of column names plus a list of rows; a row is
  an association list from column name to an optional value (`none` = NaN).
* A Python statement that raises is embedded in `Except String`, the error
  string naming the Python exception; dictionary subscripts whose key is
  statically present are embedded as total lookups.
-/

namespace NasaHack

/-- A cell of a DataFrame: `none` models NaN / a missing value. -/
abbrev Cell := Option ℚ

/-- A DataFrame row: association list from column name to cell. -/
abbrev Row := List (String × Cell)

/-- A pandas DataFrame: its column index and its rows. -/
structure Frame where
  columns : List String
  rows : List Row

/-- Reading one cell of a row; a column the row does not carry reads as NaN. -/
def cellOf (r : Row) (c : String) : Cell :=
  match r.lookup c with
  | some v => v
  | none => none

/-- A whole column of a frame, `df[c]`, as a series of cells. -/
def colOf (f : Frame) (c : String) : List Cell :=
  f.rows.map (fun r => cellOf r c)

/-- `Series.dropna()`: the present values of a series, in order. -/
def dropna (col : List Cell) : List ℚ :=
  col.filterMap id

/-- `Series.mean()` (pandas skips NaN; the mean of an empty series is NaN). -/
def seriesMean (col : List Cell) : Option ℚ :=
  let xs := dropna col
  if xs.length = 0 then none else some (xs.sum / (xs.length : ℚ))

/-- Mean of a list of (already non-NaN) values, `np.mean`. -/
def listMean (xs : List ℚ) : ℚ :=
  xs.sum / (xs.length : ℚ)

/-- Population variance, the square of `np.std`. -/
def listVar (xs : List ℚ) : ℚ :=
  ((xs.map (fun x => (x - listMean xs) ^ 2)).sum) / (xs.length : ℚ)

/-- All values of a list of floats, provided none of them is NaN. -/
def allSome : List Cell → Option (List ℚ)
  | [] => some []
  | none :: _ => none
  | some x :: rest => (allSome rest).map (fun ys => x :: ys)

/-- Strict `<` between two possibly-NaN floats: any comparison with NaN is false. -/
def pyLt (a b : Cell) : Bool :=
  match a, b with
  | some x, some y => decide (x < y)
  | _, _ => false

/-- Strict `>` between two possibly-NaN floats. -/
def pyGt (a b : Cell) : Bool :=
  pyLt b a

/-- Non-strict `≤` between two possibly-NaN floats. -/
def pyLe (a b : Cell) : Bool :=
  match a, b with
  | some x, some y => decide (x ≤ y)
  | _, _ => false

/-- Non-strict `≥` between two possibly-NaN floats. -/
def pyGe (a b : Cell) : Bool :=
  pyLe b a

/-- Python `max(a, b)` where the first argument may be NaN: `max(nan, b)` is
`nan` because no element compares greater than the running maximum. -/
def pyMaxO (a : Cell) (b : ℚ) : Cell :=
  a.map (fun x => max x b)

/-- Python `min(a, b)` where the first argument may be NaN (see `pyMaxO`). -/
def pyMinO (a : Cell) (b : ℚ) : Cell :=
  a.map (fun x => min x b)

/-! ## `multi_source_service.py` — MultiSourceDataService -/

/-- `self.source_weights` of `MultiSourceDataService.__init__`. -/
def sourceWeightsTable : List (String × ℚ) :=
  [("nasa_power", 1.0), ("ges_disc", 1.0), ("openmeteo_enhanced", 0.9),
   ("openmeteo", 0.85), ("cptec", 0.8)]

/-- `self.source_weights.get(source_name, 0.5)`. -/
def sourceWeight (s : String) : ℚ :=
  (sourceWeightsTable.lookup s).getD 0.5

/-- The `variants` table of `_find_parameter_column`. -/
def parameterVariants : List (String × List String) :=
  [("temperature", ["T2M", "temperature_2m", "temperature_2m_mean", "temp"]),
   ("apparent_temperature", ["apparent_temperature", "apparent_temperature_mean", "feels_like"]),
   ("precipitation", ["PRECTOTCORR", "precipitation_sum", "precip", "rain"]),
   ("wind_speed", ["WS2M", "WS10M", "windspeed_10m_max", "wind"]),
   ("windgusts", ["windgusts_10m_max", "wind_gusts", "gusts"]),
   ("humidity", ["RH2M", "relativehumidity_2m_mean", "humidity"]),
   ("pressure", ["PS", "surface_pressure_mean", "pressure"]),
   ("weathercode", ["weathercode", "weather_code"]),
   ("air_quality", ["AODANA", "aod", "air_quality_index"]),
   ("black_carbon", ["BCSMASS", "black_carbon", "bc"]),
   ("dust", ["DUSMASS", "dust", "dust_concentration"]),
   ("thunderstorm_risk", ["cape", "CAPE", "convective_energy"])]

/-- `MultiSourceDataService._find_parameter_column`: the first known variant
name present in the frame, else the parameter itself if it is a column. -/
def find_parameter_column (df : Frame) (parameter : String) : Option String :=
  match parameterVariants.lookup parameter with
  | some vars =>
    match vars.find? (fun v => df.columns.contains v) with
    | some v => some v
    | none => if df.columns.contains parameter then some parameter else none
  | none => if df.columns.contains parameter then some parameter else none

/-- The `values_by_source` dictionary built at the top of
`calculate_consensus`: for each source whose frame carries the parameter
(`param_col is not None and param_col in df.columns`), the column after
`dropna()`, in source order. -/
def valuesBySource (data : List (String × Frame)) (parameter : String) :
    List (String × List ℚ) :=
  data.filterMap (fun p =>
    match find_parameter_column p.2 parameter with
    | some c =>
      if p.2.columns.contains c then some (p.1, dropna (colOf p.2 c)) else none
    | none => none)

/-- `MultiSourceDataService._calculate_agreement` over the possibly-NaN source
means: below 2 values the agreement is 1.0; a NaN mean (a source whose series
was empty) makes `np.mean`, `np.std` and `np.exp` all NaN, hence a NaN
agreement (`none`); a zero mean returns 1.0; otherwise
`exp(-2 * std / |mean|)`. -/
noncomputable def calculate_agreement (values : List Cell) : Option ℝ :=
  if values.length < 2 then some 1
  else
    match allSome values with
    | none => none
    | some xs =>
      if listMean xs = 0 then some 1
      else some (Real.exp (-2 * (Real.sqrt (listVar xs) / |(listMean xs : ℝ)|)))

/-- A possibly-NaN float is `> c`: false on NaN, as in Python. -/
def gtNaN (a : Option ℝ) (c : ℝ) : Prop :=
  ∃ x, a = some x ∧ c < x

open Classical in
/-- `MultiSourceDataService._determine_confidence`. -/
noncomputable def determine_confidence (numSources : ℕ) (agreement : Option ℝ) : String :=
  if 3 ≤ numSources ∧ gtNaN agreement 0.90 then "high"
  else if 2 ≤ numSources ∧ gtNaN agreement 0.75 then "medium"
  else if 1 ≤ numSources ∧ gtNaN agreement 0.50 then "low"
  else "very_low"

/-- The dictionary `calculate_consensus` returns: `noSources` is the literal
`{value: None, confidence: 'none', sources_used: [], agreement_level: 0.0}`
of its two early returns, `result` the seven-key success dictionary. -/
inductive ConsensusResult where
  | noSources : ConsensusResult
  | result (value : ℚ) (confidence : String) (confidence_interval : Option (ℝ × ℝ))
      (sources_used : List String) (agreement_level : Option ℝ)
      (source_values : List (String × Cell)) (std_deviation : Option ℝ) : ConsensusResult

/-- The `value` entry (None in the zero-source dictionary). -/
def ConsensusResult.value : ConsensusResult → Option ℚ
  | .noSources => none
  | .result v _ _ _ _ _ _ => some v

/-- The `confidence` entry. -/
def ConsensusResult.confidence : ConsensusResult → String
  | .noSources => "none"
  | .result _ c _ _ _ _ _ => c

/-- The `sources_used` entry. -/
def ConsensusResult.sources_used : ConsensusResult → List String
  | .noSources => []
  | .result _ _ _ s _ _ _ => s

/-- The `agreement_level` entry (the literal float 0.0 in the zero-source
dictionary; `none` models a NaN agreement). -/
def ConsensusResult.agreement_level : ConsensusResult → Option ℝ
  | .noSources => some 0
  | .result _ _ _ _ a _ _ => a

/-- The `source_values` entry (absent from the zero-source dictionary). -/
def ConsensusResult.source_values : ConsensusResult → List (String × Cell)
  | .noSources => []
  | .result _ _ _ _ _ sv _ => sv

/-- The keys of the returned dictionary, in source order. -/
def ConsensusResult.keys : ConsensusResult → List String
  | .noSources => ["value", "confidence", "sources_used", "agreement_level"]
  | .result _ _ _ _ _ _ _ =>
    ["value", "confidence", "confidence_interval", "sources_used",
     "agreement_level", "source_values", "std_deviation"]

/-- `np.std` of the list of source means, NaN if one of them is NaN. -/
noncomputable def npStd (vals : List Cell) : Option ℝ :=
  (allSome vals).map (fun xs => Real.sqrt (listVar xs))

/-- The success path of `calculate_consensus` (everything after the two early
returns), over the built `values_by_source`.  The weighted loop only sees
sources with a non-empty series (`len(values) > 0`), where `values.mean()` is
the defined value of `seriesMean`; `all_values` keeps every carrying source,
so an empty series contributes a NaN mean there. -/
noncomputable def consensusFull (vbs : List (String × List ℚ)) : ConsensusResult :=
  let contributing := vbs.filter (fun p => 0 < p.2.length)
  let weighted_values := contributing.map (fun p => ((seriesMean (p.2.map some)).getD 0) * sourceWeight p.1)
  let weights := contributing.map (fun p => sourceWeight p.1)
  let sources_used := contributing.map (fun p => p.1)
  let consensus_value := weighted_values.sum / weights.sum
  let all_values := vbs.map (fun p => seriesMean (p.2.map some))
  let agreement_level := calculate_agreement all_values
  let confidence := determine_confidence sources_used.length agreement_level
  let std_dev : Option ℝ := if 1 < all_values.length then npStd all_values else some 0
  let confidence_interval : Option (ℝ × ℝ) :=
    std_dev.map (fun s => ((consensus_value : ℝ) - 1.96 * s, (consensus_value : ℝ) + 1.96 * s))
  .result consensus_value confidence confidence_interval sources_used agreement_level
    (vbs.map (fun p => (p.1, seriesMean (p.2.map some)))) std_dev

/-- `MultiSourceDataService.calculate_consensus`: the two early returns for a
parameter nobody carries (or every carrying source has an empty series), then
the weighted-mean success path. -/
noncomputable def calculate_consensus (data : List (String × Frame)) (parameter : String) :
    ConsensusResult :=
  let vbs := valuesBySource data parameter
  if vbs.isEmpty then .noSources
  else if (vbs.filter (fun p => 0 < p.2.length)).isEmpty then .noSources
  else consensusFull vbs

/-! ## `config.py` — WeatherConfig -/

/-- A value of one of WeatherConfig's threshold dictionaries: either a plain
number or a `(lo, hi)` tuple such as `comfortable: (15, 25)`. -/
inductive ConfigVal where
  | int (n : ℤ) : ConfigVal
  | pair (a b : ℤ) : ConfigVal

/-- `WeatherConfig.TEMPERATURE_THRESHOLDS` (flat numbers and one tuple — the
statistical analyzer subscripts four of the numbers with a string, which
raises TypeError at run time). -/
def TEMPERATURE_THRESHOLDS : List (String × ConfigVal) :=
  [("very_cold", .int (-10)), ("cold", .int 0), ("cool", .int 10),
   ("comfortable", .pair 15 25), ("warm", .int 27), ("hot", .int 32),
   ("very_hot", .int 38), ("extreme_heat", .int 43)]

/-- `WeatherConfig.PRECIPITATION_THRESHOLDS`. -/
def PRECIPITATION_THRESHOLDS : List (String × ℚ) :=
  [("no_rain", 0.1), ("light_rain", 2.5), ("moderate_rain", 10),
   ("heavy_rain", 50), ("very_heavy_rain", 100)]

/-- `WeatherConfig.WIND_THRESHOLDS`. -/
def WIND_THRESHOLDS : List (String × ℚ) :=
  [("calm", 1), ("light_breeze", 3), ("moderate_breeze", 6), ("fresh_breeze", 10),
   ("strong_breeze", 15), ("gale", 20), ("storm", 25), ("hurricane", 33)]

/-- `WeatherConfig.CLOUD_THRESHOLDS`. -/
def CLOUD_THRESHOLDS : List (String × ℚ) :=
  [("clear", 25), ("partly_cloudy", 50), ("mostly_cloudy", 75), ("overcast", 90)]

/-- `WeatherConfig.UV_THRESHOLDS`. -/
def UV_THRESHOLDS : List (String × ℚ) :=
  [("low", 2), ("moderate", 5), ("high", 7), ("very_high", 10), ("extreme", 11)]

/-- `WeatherConfig.PRESSURE_THRESHOLDS`. -/
def PRESSURE_THRESHOLDS : List (String × ℚ) :=
  [("very_low", 98.0), ("low", 100.0), ("normal", 101.3), ("high", 103.0), ("very_high", 104.5)]

/-- `WeatherConfig.SNOW_THRESHOLDS`. -/
def SNOW_THRESHOLDS : List (String × ℚ) :=
  [("no_snow", 0), ("light_snow", 5), ("moderate_snow", 15), ("heavy_snow", 30),
   ("very_heavy_snow", 50)]

/-- `WeatherConfig.APPARENT_TEMPERATURE_THRESHOLDS`. -/
def APPARENT_TEMPERATURE_THRESHOLDS : List (String × ConfigVal) :=
  [("extreme_cold", .int (-20)), ("very_cold", .int (-10)), ("cold", .int 0),
   ("cool", .int 10), ("comfortable", .pair 15 25), ("warm", .int 27),
   ("hot", .int 32), ("very_hot", .int 38), ("extreme_heat", .int 43)]

/-- `WeatherConfig.WIND_GUST_THRESHOLDS`. -/
def WIND_GUST_THRESHOLDS : List (String × ℚ) :=
  [("calm", 5), ("moderate", 10), ("strong", 15), ("very_strong", 20),
   ("storm", 25), ("hurricane", 33)]

/-- `WeatherConfig.WEATHER_CODE_CATEGORIES` (Python dict, insertion order). -/
def WEATHER_CODE_CATEGORIES : List (String × List ℤ) :=
  [("clear", [0, 1]), ("cloudy", [2, 3]), ("fog", [45, 48]),
   ("drizzle", [51, 53, 55, 56, 57]), ("rain", [61, 63, 65, 66, 67, 80, 81, 82]),
   ("snow", [71, 73, 75, 77, 85, 86]), ("thunderstorm", [95, 96, 99])]

/-- `WeatherConfig.WEATHER_CODE_DESCRIPTION` (the WMO codes it describes; we
only need the key set and the per-key lookup, the Russian descriptions are
kept verbatim). -/
def WEATHER_CODE_DESCRIPTION : List (ℤ × String) :=
  [(0, "Ясно"), (1, "Преимущественно ясно"), (2, "Переменная облачность"), (3, "Пасмурно"),
   (45, "Туман"), (48, "Изморозь"), (51, "Легкая морось"), (53, "Умеренная морось"),
   (55, "Сильная морось"), (56, "Ледяная морось (слабая)"), (57, "Ледяная морось (сильная)"),
   (61, "Слабый дождь"), (63, "Умеренный дождь"), (65, "Сильный дождь"),
   (66, "Ледяной дождь (слабый)"), (67, "Ледяной дождь (сильный)"),
   (71, "Слабый снег"), (73, "Умеренный снег"), (75, "Сильный снег"), (77, "Снежные зерна"),
   (80, "Слабые ливни"), (81, "Умеренные ливни"), (82, "Сильные ливни"),
   (85, "Слабые снежные ливни"), (86, "Сильные снежные ливни"),
   (95, "Гроза"), (96, "Гроза с легким градом"), (99, "Гроза с сильным градом")]

/-- `WeatherConfig.AIR_QUALITY_THRESHOLDS`. -/
def AIR_QUALITY_THRESHOLDS : List (String × ℚ) :=
  [("excellent", 0.05), ("good", 0.15), ("moderate", 0.35), ("poor", 0.65),
   ("very_poor", 1.0), ("hazardous", 2.0)]

/-- `WeatherConfig.DUST_THRESHOLDS`. -/
def DUST_THRESHOLDS : List (String × ℚ) :=
  [("minimal", 10), ("low", 50), ("moderate", 150), ("high", 250),
   ("very_high", 500), ("extreme", 1000)]

/-- `WeatherConfig.BLACK_CARBON_THRESHOLDS`. -/
def BLACK_CARBON_THRESHOLDS : List (String × ℚ) :=
  [("clean", 0.5), ("low", 2), ("moderate", 5), ("high", 10),
   ("very_high", 20), ("extreme", 50)]

/-- `WeatherConfig.THUNDERSTORM_THRESHOLDS` (CAPE, J/kg). -/
def THUNDERSTORM_THRESHOLDS : List (String × ℚ) :=
  [("none", 0), ("very_low", 300), ("low", 1000), ("moderate", 1500),
   ("high", 2500), ("very_high", 3500), ("extreme", 5000)]

/-- A Python dictionary subscript `d[k]`: a missing key raises KeyError.  Used
where the analyzer's key may be absent from the configured dictionary. -/
def dictGet {α : Type} (d : List (String × α)) (k : String) : Except String α :=
  match d.lookup k with
  | some v => .ok v
  | none => .error ("KeyError: " ++ k)

/-- Subscripting a threshold value with a string, as in
`TEMPERATURE_THRESHOLDS['very_hot']['absolute_min']`: the configured value is
a plain int (or a tuple), so Python raises TypeError. -/
def pySubscript (v : ConfigVal) (k : String) : Except String ℚ :=
  match v, k with
  | .int _, _ => .error "TypeError: int is not subscriptable"
  | .pair _ _, _ => .error "TypeError: tuple indices must be integers"

/-- A subscript `d[k]` whose key is statically present in the configured
dictionary (Python cannot raise there); the default is never reached. -/
def cfgVal (d : List (String × ℚ)) (k : String) : ℚ :=
  (d.lookup k).getD 0

/-- A subscript of `APPARENT_TEMPERATURE_THRESHOLDS`, whose keys used by the
analyzer are all present. -/
def cfgValA (k : String) : ConfigVal :=
  (APPARENT_TEMPERATURE_THRESHOLDS.lookup k).getD (.int 0)

/-- A threshold value used as a number (only `.int` entries are so used). -/
def ConfigVal.asQ : ConfigVal → ℚ
  | .int n => (n : ℚ)
  | .pair a _ => (a : ℚ)

/-- Tuple index `[0]` of a threshold value (only applied to `.pair` entries). -/
def ConfigVal.item0 : ConfigVal → ℚ
  | .int n => (n : ℚ)
  | .pair a _ => (a : ℚ)

/-- Tuple index `[1]` of a threshold value (only applied to `.pair` entries). -/
def ConfigVal.item1 : ConfigVal → ℚ
  | .int n => (n : ℚ)
  | .pair _ b => (b : ℚ)

/-- `WeatherConfig.calculate_heat_index` (Rothfusz regression; below 27 °C or
40 % humidity the input temperature is returned unchanged). -/
def calculate_heat_index (temperature_c humidity_percent : ℚ) : ℚ :=
  if temperature_c < 27 ∨ humidity_percent < 40 then temperature_c
  else
    let temp_f := temperature_c * 9 / 5 + 32
    let rh := humidity_percent
    let hi_f := -42.379 + 2.04901523 * temp_f + 10.14333127 * rh
      - 0.22475541 * temp_f * rh - 0.00683783 * temp_f * temp_f
      - 0.05481717 * rh * rh + 0.00122874 * temp_f * temp_f * rh
      + 0.00085282 * temp_f * rh * rh - 0.00000199 * temp_f * temp_f * rh * rh
    (hi_f - 32) * 5 / 9

/-- `calculate_heat_index` applied to possibly-NaN cells, as the comfort
analyzer does row by row: a NaN comparison is false, so a NaN temperature
reaches whichever branch the humidity picks and the result is NaN either way;
a NaN humidity with t < 27 returns t. -/
def heatIndexCell (t h : Cell) : Cell :=
  if pyLt t (some 27) || pyLt h (some 40) then t
  else
    match t, h with
    | some tc, some hp => some (calculate_heat_index tc hp)
    | _, _ => none

/-- `WeatherConfig.calculate_wind_chill`.  In the source the formula statement
(config.py line 294) ends with a dangling `+` and no continuation, a Python
SyntaxError that makes the whole module unimportable; the body here joins
lines 294–295, the only reading of the intended US NWS formula named in the
source comment and in the spec. -/
noncomputable def calculate_wind_chill (temperature_c wind_speed_ms : ℚ) : ℝ :=
  if 10 < temperature_c ∨ wind_speed_ms < 1.3 then (temperature_c : ℝ)
  else
    let wind_speed_kmh : ℝ := (wind_speed_ms : ℝ) * 3.6
    13.12 + 0.6215 * (temperature_c : ℝ) - 11.37 * Real.rpow wind_speed_kmh 0.16
      + 0.3965 * (temperature_c : ℝ) * Real.rpow wind_speed_kmh 0.16

/-- `WeatherConfig.calculate_apparent_temperature` (Australian AT formula;
`2.71828 ** x` is a real power). -/
noncomputable def calculate_apparent_temperature (t h w : ℚ) (solar : Option ℚ) : ℝ :=
  let es : ℝ := 6.112 * Real.rpow 2.71828 (((17.67 * t) / (t + 243.5) : ℚ) : ℝ)
  let e : ℝ := ((h : ℝ) / 100) * es
  let solar_effect : ℝ :=
    match solar with
    | some s => if 100 < s then 0.04 * ((s : ℝ) / 100) else 0
    | none => 0
  (t : ℝ) + 0.33 * e - 0.70 * (w : ℝ) - 4.00 + solar_effect

/-- `calculate_apparent_temperature` on possibly-NaN cells (NaN propagates
through the arithmetic; the analyzer passes no solar radiation). -/
noncomputable def apparentCell (t h w : Cell) : Option ℝ :=
  match t, h, w with
  | some tc, some hp, some ws => some (calculate_apparent_temperature tc hp ws none)
  | _, _, _ => none

/-- `WeatherConfig.get_weather_code_category`. -/
def get_weather_code_category (weather_code : ℤ) : String :=
  match WEATHER_CODE_CATEGORIES.find? (fun p => p.2.contains weather_code) with
  | some p => p.1
  | none => "unknown"

/-- `WeatherConfig.get_air_quality_level` on a possibly-NaN mean AOD (every
comparison with NaN is false, so a NaN value falls through to hazardous). -/
def get_air_quality_level (aod_value : Cell) : String :=
  if pyLt aod_value (some (cfgVal AIR_QUALITY_THRESHOLDS "excellent")) then "excellent"
  else if pyLt aod_value (some (cfgVal AIR_QUALITY_THRESHOLDS "good")) then "good"
  else if pyLt aod_value (some (cfgVal AIR_QUALITY_THRESHOLDS "moderate")) then "moderate"
  else if pyLt aod_value (some (cfgVal AIR_QUALITY_THRESHOLDS "poor")) then "poor"
  else if pyLt aod_value (some (cfgVal AIR_QUALITY_THRESHOLDS "very_poor")) then "very_poor"
  else "hazardous"

/-- `WeatherConfig.get_thunderstorm_risk` on a possibly-NaN mean CAPE. -/
def get_thunderstorm_risk (cape_value : Cell) : String :=
  if pyLt cape_value (some (cfgVal THUNDERSTORM_THRESHOLDS "none")) then "none"
  else if pyLt cape_value (some (cfgVal THUNDERSTORM_THRESHOLDS "very_low")) then "very_low"
  else if pyLt cape_value (some (cfgVal THUNDERSTORM_THRESHOLDS "low")) then "low"
  else if pyLt cape_value (some (cfgVal THUNDERSTORM_THRESHOLDS "moderate")) then "moderate"
  else if pyLt cape_value (some (cfgVal THUNDERSTORM_THRESHOLDS "high")) then "high"
  else if pyLt cape_value (some (cfgVal THUNDERSTORM_THRESHOLDS "very_high")) then "very_high"
  else "extreme"

/-! ## `statistical_analyzer.py` — series helpers -/

/-- `Series.min()` (skips NaN; NaN when nothing is left). -/
def seriesMin (col : List Cell) : Option ℚ :=
  match dropna col with
  | [] => none
  | x :: xs => some (xs.foldl min x)

/-- `Series.max()` (skips NaN; NaN when nothing is left). -/
def seriesMax (col : List Cell) : Option ℚ :=
  match dropna col with
  | [] => none
  | x :: xs => some (xs.foldl max x)

/-- `Series.std()` — pandas sample standard deviation (ddof = 1), NaN when
fewer than two values are present. -/
noncomputable def sampleStd (col : List Cell) : Option ℝ :=
  let xs := dropna col
  if xs.length < 2 then none
  else some (Real.sqrt (((xs.map (fun x => (x - listMean xs) ^ 2)).sum / ((xs.length : ℚ) - 1) : ℚ)))

/-- Inserts a value into a sorted list, keeping it sorted. -/
def insertSorted (x : ℚ) : List ℚ → List ℚ
  | [] => [x]
  | y :: ys => if x ≤ y then x :: y :: ys else y :: insertSorted x ys

/-- Insertion sort (ascending), the value order pandas quantiles need. -/
def sortQ (l : List ℚ) : List ℚ :=
  l.foldr insertSorted []

/-- The linear-interpolation quantile of a non-empty value list, pandas'
default method: with the values sorted, position `h = q·(n−1)`, result
`v⌊h⌋ + (h−⌊h⌋)·(v⌊h⌋₊₁ − v⌊h⌋)`. -/
def quantileLinear (xs : List ℚ) (q : ℚ) : Option ℚ :=
  let s := sortQ xs
  if s.length = 0 then none
  else
    let h : ℚ := q * ((s.length : ℚ) - 1)
    let i : ℕ := (⌊h⌋).toNat
    let frac : ℚ := h - (⌊h⌋ : ℚ)
    let lo := s.getD i 0
    let hi := s.getD (min (i + 1) (s.length - 1)) 0
    some (lo + frac * (hi - lo))

/-- `Series.quantile(q)` (skips NaN; NaN on an empty series). -/
def seriesQuantile (col : List Cell) (q : ℚ) : Option ℚ :=
  quantileLinear (dropna col) q

/-- `Series.mode()[0]`: the smallest among the most frequent present values,
`none` when no value is present (`len(mode()) == 0`). -/
def seriesModeFirst (col : List Cell) : Option ℚ :=
  let xs := dropna col
  match xs with
  | [] => none
  | _ =>
    let maxCount := (xs.map (fun x => xs.count x)).foldl max 0
    (xs.filter (fun x => xs.count x == maxCount)).foldl
      (fun acc x =>
        match acc with
        | none => some x
        | some a => some (min a x))
      none

/-- The mean of a boolean mask over a column, `(series cmp thr).mean()`:
the number of rows where the comparison holds (NaN compares false) over the
number of rows. -/
def boolMean (col : List Cell) (p : Cell → Bool) : ℚ :=
  ((col.countP p : ℕ) : ℚ) / ((col.length : ℕ) : ℚ)

/-- Python `int()` of a float: truncation toward zero. -/
def intTrunc (q : ℚ) : ℤ :=
  if 0 ≤ q then ⌊q⌋ else -⌊-q⌋

/-- A possibly-NaN real is `< c` (false on NaN). -/
def pyLtR (a : Option ℝ) (c : ℝ) : Prop :=
  ∃ x, a = some x ∧ x < c

/-- A possibly-NaN real is `≤ c` (false on NaN). -/
def pyLeR (a : Option ℝ) (c : ℝ) : Prop :=
  ∃ x, a = some x ∧ x ≤ c

/-- A possibly-NaN real is `≥ c` (false on NaN). -/
def pyGeR (a : Option ℝ) (c : ℝ) : Prop :=
  ∃ x, a = some x ∧ c ≤ x

/-- A possibly-NaN real is `> c` (false on NaN). -/
def pyGtR (a : Option ℝ) (c : ℝ) : Prop :=
  ∃ x, a = some x ∧ c < x

open Classical in
/-- `len(day_data[mask])` for a row predicate that may compare real values
(classically decided; the executable analyzers never reach this with an
undecidable branch). -/
noncomputable def countPC {α : Type} (l : List α) (P : α → Prop) : ℕ :=
  (l.filter (fun a => decide (P a))).length

/-- A cell `isin` a list of integer codes (false on NaN). -/
def cellIsIn (c : Cell) (codes : List ℤ) : Bool :=
  match c with
  | some v => codes.any (fun z => decide ((z : ℚ) = v))
  | none => false

/-- `Option ℚ` to `Option ℝ`, for statistics values. -/
noncomputable def oR (o : Option ℚ) : Option ℝ :=
  o.map (fun q => (q : ℝ))

/-! ## `statistical_analyzer.py` — per-category analyzers -/

/-- `StatisticalAnalyzer._analyze_temperature`.  The hybrid thresholds read
`TEMPERATURE_THRESHOLDS['very_hot']['absolute_min']` (and three siblings), but
the configured values are plain ints, so the first such subscript raises
TypeError; the remaining statements are transcribed but unreachable. -/
def analyze_temperature (dayData : Frame) : Except String (List (String × ℚ)) := do
  let temp_max := colOf dayData "T2M_MAX"
  let temp_min := colOf dayData "T2M_MIN"
  let mut probabilities : List (String × ℚ) := []
  let percentile_90 := seriesQuantile temp_max 0.90
  let vh ← dictGet TEMPERATURE_THRESHOLDS "very_hot"
  let vhAbs ← pySubscript vh "absolute_min"
  let very_hot_threshold := pyMaxO percentile_90 vhAbs
  probabilities := probabilities ++ [("very_hot", boolMean temp_max (fun c => pyGt c very_hot_threshold))]
  let percentile_75 := seriesQuantile temp_max 0.75
  let ho ← dictGet TEMPERATURE_THRESHOLDS "hot"
  let hoAbs ← pySubscript ho "absolute_min"
  let hot_threshold := pyMaxO percentile_75 hoAbs
  probabilities := probabilities ++ [("hot", boolMean temp_max (fun c => pyGt c hot_threshold))]
  let percentile_10 := seriesQuantile temp_min 0.10
  let vc ← dictGet TEMPERATURE_THRESHOLDS "very_cold"
  let vcAbs ← pySubscript vc "absolute_min"
  let very_cold_threshold := pyMinO percentile_10 vcAbs
  probabilities := probabilities ++ [("very_cold", boolMean temp_min (fun c => pyLt c very_cold_threshold))]
  let percentile_25 := seriesQuantile temp_min 0.25
  let co ← dictGet TEMPERATURE_THRESHOLDS "cold"
  let coAbs ← pySubscript co "absolute_max"
  let cold_threshold := pyMinO percentile_25 coAbs
  probabilities := probabilities ++ [("cold", boolMean temp_min (fun c => pyLt c cold_threshold))]
  if dayData.columns.contains "T2M" then
    let temp_mean := colOf dayData "T2M"
    probabilities := probabilities ++
      [("comfortable_temperature", boolMean temp_mean (fun c => pyGe c (some 15) && pyLe c (some 25)))]
  return probabilities

/-- `StatisticalAnalyzer._analyze_precipitation`.  The first threshold read is
`PRECIPITATION_THRESHOLDS['very_wet']`, a key the configured dictionary does
not contain, so every call raises KeyError; the rest is transcribed but
unreachable (and `'very_dry'` is missing too). -/
def analyze_precipitation (dayData : Frame) : Except String (List (String × ℚ)) := do
  let precip := colOf dayData "PRECTOTCORR"
  let mut probabilities : List (String × ℚ) := []
  let tVeryWet ← dictGet PRECIPITATION_THRESHOLDS "very_wet"
  probabilities := probabilities ++ [("very_wet", boolMean precip (fun c => pyGt c (some tVeryWet)))]
  let tHeavy ← dictGet PRECIPITATION_THRESHOLDS "heavy_rain"
  probabilities := probabilities ++ [("heavy_rain", boolMean precip (fun c => pyGt c (some tHeavy)))]
  let tModerate ← dictGet PRECIPITATION_THRESHOLDS "moderate_rain"
  probabilities := probabilities ++
    [("moderate_rain", boolMean precip (fun c => pyGt c (some tModerate) && pyLe c (some tHeavy)))]
  let tLight ← dictGet PRECIPITATION_THRESHOLDS "light_rain"
  probabilities := probabilities ++
    [("light_rain", boolMean precip (fun c => pyGt c (some tLight) && pyLe c (some tModerate)))]
  let tVeryDry ← dictGet PRECIPITATION_THRESHOLDS "very_dry"
  probabilities := probabilities ++ [("dry", boolMean precip (fun c => pyLt c (some tVeryDry)))]
  return probabilities

/-- `StatisticalAnalyzer._analyze_wind`.  The first threshold read is
`WIND_THRESHOLDS['very_windy']`, a key the configured dictionary does not
contain, so every call raises KeyError (`'strong_wind'` and `'moderate_wind'`
are missing too). -/
def analyze_wind (dayData : Frame) : Except String (List (String × ℚ)) := do
  let wind := colOf dayData "WS2M"
  let mut probabilities : List (String × ℚ) := []
  let tVeryWindy ← dictGet WIND_THRESHOLDS "very_windy"
  probabilities := probabilities ++ [("very_windy", boolMean wind (fun c => pyGt c (some tVeryWindy)))]
  let tStrong ← dictGet WIND_THRESHOLDS "strong_wind"
  probabilities := probabilities ++
    [("strong_wind", boolMean wind (fun c => pyGt c (some tStrong) && pyLe c (some tVeryWindy)))]
  let tModerate ← dictGet WIND_THRESHOLDS "moderate_wind"
  probabilities := probabilities ++
    [("moderate_wind", boolMean wind (fun c => pyGt c (some tModerate) && pyLe c (some tStrong)))]
  let tCalm ← dictGet WIND_THRESHOLDS "calm"
  probabilities := probabilities ++ [("calm", boolMean wind (fun c => pyLt c (some tCalm)))]
  return probabilities

/-- `StatisticalAnalyzer._analyze_comfort`: computes the per-row heat index,
then reads `self.config.COMFORT_INDEX` — an attribute `WeatherConfig` does not
define (it defines `COMFORT_INDEX_THRESHOLDS`), so every call raises
AttributeError; the statements after that access have no value to model. -/
def analyze_comfort (dayData : Frame) : Except String (List (String × ℚ)) := do
  let temp := colOf dayData "T2M"
  let humidity := colOf dayData "RH2M"
  let heat_indices := (temp.zip humidity).map (fun p => heatIndexCell p.1 p.2)
  let _ := heat_indices
  let _ ← (Except.error "AttributeError: WeatherConfig has no attribute COMFORT_INDEX" :
    Except String ConfigVal)
  return []

/-- `StatisticalAnalyzer._analyze_cloudiness`. -/
def analyze_cloudiness (dayData : Frame) : List (String × ℚ) :=
  let cloud := colOf dayData "CLOUD_AMT"
  let tClear := cfgVal CLOUD_THRESHOLDS "clear"
  let tPartly := cfgVal CLOUD_THRESHOLDS "partly_cloudy"
  let tMostly := cfgVal CLOUD_THRESHOLDS "mostly_cloudy"
  let tOver := cfgVal CLOUD_THRESHOLDS "overcast"
  [("clear", boolMean cloud (fun c => pyLt c (some tClear))),
   ("partly_cloudy", boolMean cloud (fun c => pyGe c (some tClear) && pyLt c (some tPartly))),
   ("mostly_cloudy", boolMean cloud (fun c => pyGe c (some tPartly) && pyLt c (some tMostly))),
   ("overcast", boolMean cloud (fun c => pyGe c (some tOver)))]

/-- `StatisticalAnalyzer._analyze_uv_index`. -/
def analyze_uv_index (dayData : Frame) : List (String × ℚ) :=
  let uv := colOf dayData "ALLSKY_SFC_UV_INDEX"
  let tLow := cfgVal UV_THRESHOLDS "low"
  let tModerate := cfgVal UV_THRESHOLDS "moderate"
  let tHigh := cfgVal UV_THRESHOLDS "high"
  let tVeryHigh := cfgVal UV_THRESHOLDS "very_high"
  let tExtreme := cfgVal UV_THRESHOLDS "extreme"
  [("low_uv", boolMean uv (fun c => pyLt c (some tLow))),
   ("moderate_uv", boolMean uv (fun c => pyGe c (some tLow) && pyLt c (some tModerate))),
   ("high_uv", boolMean uv (fun c => pyGe c (some tModerate) && pyLt c (some tHigh))),
   ("very_high_uv", boolMean uv (fun c => pyGe c (some tHigh) && pyLt c (some tVeryHigh))),
   ("extreme_uv", boolMean uv (fun c => pyGe c (some tExtreme)))]

/-- `StatisticalAnalyzer._analyze_pressure`. -/
def analyze_pressure (dayData : Frame) : List (String × ℚ) :=
  let pressure := colOf dayData "PS"
  let tVeryLow := cfgVal PRESSURE_THRESHOLDS "very_low"
  let tLow := cfgVal PRESSURE_THRESHOLDS "low"
  let tHigh := cfgVal PRESSURE_THRESHOLDS "high"
  let tVeryHigh := cfgVal PRESSURE_THRESHOLDS "very_high"
  [("very_low_pressure", boolMean pressure (fun c => pyLt c (some tVeryLow))),
   ("low_pressure", boolMean pressure (fun c => pyGe c (some tVeryLow) && pyLt c (some tLow))),
   ("normal_pressure", boolMean pressure (fun c => pyGe c (some tLow) && pyLt c (some tHigh))),
   ("high_pressure", boolMean pressure (fun c => pyGe c (some tHigh) && pyLt c (some tVeryHigh))),
   ("very_high_pressure", boolMean pressure (fun c => pyGe c (some tVeryHigh)))]

/-- `StatisticalAnalyzer._analyze_snow`. -/
def analyze_snow (dayData : Frame) : List (String × ℚ) :=
  let snow := colOf dayData "SNODP"
  let tNo := cfgVal SNOW_THRESHOLDS "no_snow"
  let tLight := cfgVal SNOW_THRESHOLDS "light_snow"
  let tModerate := cfgVal SNOW_THRESHOLDS "moderate_snow"
  let tHeavy := cfgVal SNOW_THRESHOLDS "heavy_snow"
  let tVeryHeavy := cfgVal SNOW_THRESHOLDS "very_heavy_snow"
  [("no_snow", boolMean snow (fun c => pyLe c (some tNo))),
   ("light_snow", boolMean snow (fun c => pyGt c (some tNo) && pyLe c (some tLight))),
   ("moderate_snow", boolMean snow (fun c => pyGt c (some tLight) && pyLe c (some tModerate))),
   ("heavy_snow", boolMean snow (fun c => pyGt c (some tModerate) && pyLe c (some tHeavy))),
   ("very_heavy_snow", boolMean snow (fun c => pyGt c (some tVeryHeavy)))]

/-- `StatisticalAnalyzer._analyze_apparent_temperature`: uses the provided
`apparent_temperature_mean` column, else computes the Australian AT from
`T2M`, `RH2M`, `WS2M` (a real-valued series), else returns `{}`. -/
noncomputable def analyze_apparent_temperature (dayData : Frame) : List (String × ℚ) :=
  let series : Option (List (Option ℝ)) :=
    if dayData.columns.contains "apparent_temperature_mean" then
      some ((colOf dayData "apparent_temperature_mean").map (fun c => c.map (fun q => (q : ℝ))))
    else if dayData.columns.contains "T2M" && dayData.columns.contains "RH2M"
        && dayData.columns.contains "WS2M" then
      some (dayData.rows.map (fun r => apparentCell (cellOf r "T2M") (cellOf r "RH2M") (cellOf r "WS2M")))
    else none
  match series with
  | none => []
  | some vals =>
    let total : ℚ := ((dayData.rows.length : ℕ) : ℚ)
    let tExtremeCold : ℝ := ((cfgValA "extreme_cold").asQ : ℝ)
    let tVeryCold : ℝ := ((cfgValA "very_cold").asQ : ℝ)
    let tCold : ℝ := ((cfgValA "cold").asQ : ℝ)
    let tComfortLo : ℝ := ((cfgValA "comfortable").item0 : ℝ)
    let tComfortHi : ℝ := ((cfgValA "comfortable").item1 : ℝ)
    let tHot : ℝ := ((cfgValA "hot").asQ : ℝ)
    let tVeryHot : ℝ := ((cfgValA "very_hot").asQ : ℝ)
    let tExtremeHeat : ℝ := ((cfgValA "extreme_heat").asQ : ℝ)
    [("extreme_cold_feels_like", ((countPC vals (fun v => pyLtR v tExtremeCold) : ℕ) : ℚ) / total),
     ("very_cold_feels_like",
       ((countPC vals (fun v => pyGeR v tExtremeCold ∧ pyLtR v tVeryCold) : ℕ) : ℚ) / total),
     ("cold_feels_like",
       ((countPC vals (fun v => pyGeR v tVeryCold ∧ pyLtR v tCold) : ℕ) : ℚ) / total),
     ("comfortable_feels_like",
       ((countPC vals (fun v => pyGeR v tComfortLo ∧ pyLeR v tComfortHi) : ℕ) : ℚ) / total),
     ("hot_feels_like",
       ((countPC vals (fun v => pyGtR v tComfortHi ∧ pyLtR v tHot) : ℕ) : ℚ) / total),
     ("very_hot_feels_like",
       ((countPC vals (fun v => pyGeR v tHot ∧ pyLtR v tVeryHot) : ℕ) : ℚ) / total),
     ("extreme_heat_feels_like", ((countPC vals (fun v => pyGeR v tExtremeHeat) : ℕ) : ℚ) / total)]

/-- `StatisticalAnalyzer._analyze_weather_conditions` (WMO code categories). -/
def analyze_weather_conditions (dayData : Frame) : List (String × ℚ) :=
  if dayData.columns.contains "weathercode" then
    let wc := colOf dayData "weathercode"
    let total : ℚ := ((dayData.rows.length : ℕ) : ℚ)
    WEATHER_CODE_CATEGORIES.map (fun p =>
      ("weather_" ++ p.1, ((wc.countP (fun c => cellIsIn c p.2) : ℕ) : ℚ) / total))
  else []

/-- `StatisticalAnalyzer._analyze_wind_gusts`. -/
def analyze_wind_gusts (dayData : Frame) : List (String × ℚ) :=
  let gustCol : Option String :=
    if dayData.columns.contains "windgusts_10m_max" then some "windgusts_10m_max"
    else if dayData.columns.contains "wind_gusts" then some "wind_gusts"
    else none
  match gustCol with
  | none => []
  | some gc =>
    let g := colOf dayData gc
    let tCalm := cfgVal WIND_GUST_THRESHOLDS "calm"
    let tModerate := cfgVal WIND_GUST_THRESHOLDS "moderate"
    let tStrong := cfgVal WIND_GUST_THRESHOLDS "strong"
    let tVeryStrong := cfgVal WIND_GUST_THRESHOLDS "very_strong"
    let tStorm := cfgVal WIND_GUST_THRESHOLDS "storm"
    let tHurricane := cfgVal WIND_GUST_THRESHOLDS "hurricane"
    [("calm_gusts", boolMean g (fun c => pyLt c (some tCalm))),
     ("moderate_gusts", boolMean g (fun c => pyGe c (some tCalm) && pyLt c (some tModerate))),
     ("strong_gusts", boolMean g (fun c => pyGe c (some tModerate) && pyLt c (some tStrong))),
     ("very_strong_gusts", boolMean g (fun c => pyGe c (some tStrong) && pyLt c (some tVeryStrong))),
     ("storm_gusts", boolMean g (fun c => pyGe c (some tVeryStrong) && pyLt c (some tStorm))),
     ("hurricane_gusts", boolMean g (fun c => pyGe c (some tHurricane)))]

/-- `StatisticalAnalyzer._analyze_air_quality` (AOD, black carbon, dust). -/
def analyze_air_quality (dayData : Frame) : List (String × ℚ) :=
  let part1 :=
    if dayData.columns.contains "AODANA" || dayData.columns.contains "aod" then
      let aodCol := if dayData.columns.contains "AODANA" then "AODANA" else "aod"
      let a := colOf dayData aodCol
      let tExcellent := cfgVal AIR_QUALITY_THRESHOLDS "excellent"
      let tGood := cfgVal AIR_QUALITY_THRESHOLDS "good"
      let tModerate := cfgVal AIR_QUALITY_THRESHOLDS "moderate"
      let tPoor := cfgVal AIR_QUALITY_THRESHOLDS "poor"
      let tVeryPoor := cfgVal AIR_QUALITY_THRESHOLDS "very_poor"
      let tHazardous := cfgVal AIR_QUALITY_THRESHOLDS "hazardous"
      [("air_quality_excellent", boolMean a (fun c => pyLt c (some tExcellent))),
       ("air_quality_good", boolMean a (fun c => pyGe c (some tExcellent) && pyLt c (some tGood))),
       ("air_quality_moderate", boolMean a (fun c => pyGe c (some tGood) && pyLt c (some tModerate))),
       ("air_quality_poor", boolMean a (fun c => pyGe c (some tModerate) && pyLt c (some tPoor))),
       ("air_quality_very_poor", boolMean a (fun c => pyGe c (some tPoor) && pyLt c (some tVeryPoor))),
       ("air_quality_hazardous", boolMean a (fun c => pyGe c (some tHazardous)))]
    else []
  let part2 :=
    if dayData.columns.contains "BCSMASS" then
      let b := colOf dayData "BCSMASS"
      let tClean := cfgVal BLACK_CARBON_THRESHOLDS "clean"
      let tLow := cfgVal BLACK_CARBON_THRESHOLDS "low"
      let tHigh := cfgVal BLACK_CARBON_THRESHOLDS "high"
      [("black_carbon_clean", boolMean b (fun c => pyLt c (some tClean))),
       ("black_carbon_low", boolMean b (fun c => pyGe c (some tClean) && pyLt c (some tLow))),
       ("black_carbon_high", boolMean b (fun c => pyGe c (some tHigh)))]
    else []
  let part3 :=
    if dayData.columns.contains "DUSMASS" then
      let d := colOf dayData "DUSMASS"
      let tMinimal := cfgVal DUST_THRESHOLDS "minimal"
      let tLow := cfgVal DUST_THRESHOLDS "low"
      let tHigh := cfgVal DUST_THRESHOLDS "high"
      let tVeryHigh := cfgVal DUST_THRESHOLDS "very_high"
      [("dust_minimal", boolMean d (fun c => pyLt c (some tMinimal))),
       ("dust_low", boolMean d (fun c => pyGe c (some tMinimal) && pyLt c (some tLow))),
       ("dust_high", boolMean d (fun c => pyGe c (some tHigh) && pyLt c (some tVeryHigh))),
       ("dust_storm", boolMean d (fun c => pyGe c (some tVeryHigh)))]
    else []
  part1 ++ part2 ++ part3

/-- `StatisticalAnalyzer._analyze_thunderstorm_risk` (CAPE). -/
def analyze_thunderstorm_risk (dayData : Frame) : List (String × ℚ) :=
  let capeCol : Option String :=
    if dayData.columns.contains "cape" then some "cape"
    else if dayData.columns.contains "CAPE" then some "CAPE"
    else none
  match capeCol with
  | none => []
  | some cc =>
    let cp := colOf dayData cc
    let tVeryLow := cfgVal THUNDERSTORM_THRESHOLDS "very_low"
    let tLow := cfgVal THUNDERSTORM_THRESHOLDS "low"
    let tModerate := cfgVal THUNDERSTORM_THRESHOLDS "moderate"
    let tHigh := cfgVal THUNDERSTORM_THRESHOLDS "high"
    let tVeryHigh := cfgVal THUNDERSTORM_THRESHOLDS "very_high"
    let tExtreme := cfgVal THUNDERSTORM_THRESHOLDS "extreme"
    [("thunderstorm_none", boolMean cp (fun c => pyLt c (some tVeryLow))),
     ("thunderstorm_very_low", boolMean cp (fun c => pyGe c (some tVeryLow) && pyLt c (some tLow))),
     ("thunderstorm_low", boolMean cp (fun c => pyGe c (some tLow) && pyLt c (some tModerate))),
     ("thunderstorm_moderate", boolMean cp (fun c => pyGe c (some tModerate) && pyLt c (some tHigh))),
     ("thunderstorm_high", boolMean cp (fun c => pyGe c (some tHigh) && pyLt c (some tVeryHigh))),
     ("thunderstorm_very_high", boolMean cp (fun c => pyGe c (some tVeryHigh) && pyLt c (some tExtreme))),
     ("thunderstorm_extreme", boolMean cp (fun c => pyGe c (some tExtreme)))]

/-! ## `statistical_analyzer.py` — statistics, reports -/

/-- A value of the statistics dictionary: a float (possibly NaN), an int, a
string, or Python's `None`. -/
inductive SVal where
  | num (x : Option ℝ) : SVal
  | int (n : ℤ) : SVal
  | str (s : String) : SVal
  | pynone : SVal

/-- The `statistics` mapping: category name to a field dictionary. -/
abbrev Stats := List (String × List (String × SVal))

/-- `StatisticalAnalyzer._calculate_statistics`. -/
noncomputable def calculate_statistics (dayData : Frame) : Stats :=
  (if dayData.columns.contains "T2M" then
    [("temperature",
      [("mean", SVal.num (oR (seriesMean (colOf dayData "T2M")))),
       ("min", if dayData.columns.contains "T2M_MIN" then
          SVal.num (oR (seriesMin (colOf dayData "T2M_MIN"))) else SVal.pynone),
       ("max", if dayData.columns.contains "T2M_MAX" then
          SVal.num (oR (seriesMax (colOf dayData "T2M_MAX"))) else SVal.pynone),
       ("std", SVal.num (sampleStd (colOf dayData "T2M"))),
       ("percentile_10", SVal.num (oR (seriesQuantile (colOf dayData "T2M") 0.10))),
       ("percentile_90", SVal.num (oR (seriesQuantile (colOf dayData "T2M") 0.90)))])]
   else []) ++
  (if dayData.columns.contains "PRECTOTCORR" then
    [("precipitation",
      [("mean", SVal.num (oR (seriesMean (colOf dayData "PRECTOTCORR")))),
       ("max", SVal.num (oR (seriesMax (colOf dayData "PRECTOTCORR")))),
       ("std", SVal.num (sampleStd (colOf dayData "PRECTOTCORR"))),
       ("percentile_90", SVal.num (oR (seriesQuantile (colOf dayData "PRECTOTCORR") 0.90)))])]
   else []) ++
  (if dayData.columns.contains "WS2M" then
    [("wind",
      [("mean", SVal.num (oR (seriesMean (colOf dayData "WS2M")))),
       ("max", SVal.num (oR (seriesMax (colOf dayData "WS2M")))),
       ("std", SVal.num (sampleStd (colOf dayData "WS2M"))),
       ("percentile_90", SVal.num (oR (seriesQuantile (colOf dayData "WS2M") 0.90)))])]
   else []) ++
  (if dayData.columns.contains "RH2M" then
    [("humidity",
      [("mean", SVal.num (oR (seriesMean (colOf dayData "RH2M")))),
       ("min", SVal.num (oR (seriesMin (colOf dayData "RH2M")))),
       ("max", SVal.num (oR (seriesMax (colOf dayData "RH2M")))),
       ("std", SVal.num (sampleStd (colOf dayData "RH2M")))])]
   else []) ++
  (if dayData.columns.contains "T2MDEW" then
    [("dew_point",
      [("mean", SVal.num (oR (seriesMean (colOf dayData "T2MDEW")))),
       ("min", SVal.num (oR (seriesMin (colOf dayData "T2MDEW")))),
       ("max", SVal.num (oR (seriesMax (colOf dayData "T2MDEW"))))])]
   else []) ++
  (if dayData.columns.contains "CLOUD_AMT" then
    [("cloudiness",
      [("mean", SVal.num (oR (seriesMean (colOf dayData "CLOUD_AMT")))),
       ("min", SVal.num (oR (seriesMin (colOf dayData "CLOUD_AMT")))),
       ("max", SVal.num (oR (seriesMax (colOf dayData "CLOUD_AMT"))))])]
   else []) ++
  (if dayData.columns.contains "ALLSKY_SFC_UV_INDEX" then
    [("uv_index",
      [("mean", SVal.num (oR (seriesMean (colOf dayData "ALLSKY_SFC_UV_INDEX")))),
       ("max", SVal.num (oR (seriesMax (colOf dayData "ALLSKY_SFC_UV_INDEX")))),
       ("percentile_90", SVal.num (oR (seriesQuantile (colOf dayData "ALLSKY_SFC_UV_INDEX") 0.90)))])]
   else []) ++
  (if dayData.columns.contains "ALLSKY_SFC_SW_DWN" then
    [("solar_radiation",
      [("mean", SVal.num (oR (seriesMean (colOf dayData "ALLSKY_SFC_SW_DWN")))),
       ("max", SVal.num (oR (seriesMax (colOf dayData "ALLSKY_SFC_SW_DWN"))))])]
   else []) ++
  (if dayData.columns.contains "PS" then
    [("pressure",
      [("mean", SVal.num (oR (seriesMean (colOf dayData "PS")))),
       ("min", SVal.num (oR (seriesMin (colOf dayData "PS")))),
       ("max", SVal.num (oR (seriesMax (colOf dayData "PS")))),
       ("std", SVal.num (sampleStd (colOf dayData "PS")))])]
   else []) ++
  (if dayData.columns.contains "SNODP" then
    [("snow",
      [("mean", SVal.num (oR (seriesMean (colOf dayData "SNODP")))),
       ("max", SVal.num (oR (seriesMax (colOf dayData "SNODP")))),
       ("days_with_snow", SVal.int (((colOf dayData "SNODP").countP (fun c => pyGt c (some 0)) : ℕ) : ℤ))])]
   else []) ++
  (if dayData.columns.contains "WS10M" then
    [("wind_10m",
      [("mean", SVal.num (oR (seriesMean (colOf dayData "WS10M")))),
       ("max", SVal.num (oR (seriesMax (colOf dayData "WS10M"))))])]
   else []) ++
  (if dayData.columns.contains "apparent_temperature_mean" then
    [("apparent_temperature",
      [("mean", SVal.num (oR (seriesMean (colOf dayData "apparent_temperature_mean")))),
       ("min", SVal.num (oR (seriesMin (colOf dayData "apparent_temperature_mean")))),
       ("max", SVal.num (oR (seriesMax (colOf dayData "apparent_temperature_mean")))),
       ("std", SVal.num (sampleStd (colOf dayData "apparent_temperature_mean")))])]
   else []) ++
  (if dayData.columns.contains "windgusts_10m_max" then
    [("wind_gusts",
      [("mean", SVal.num (oR (seriesMean (colOf dayData "windgusts_10m_max")))),
       ("max", SVal.num (oR (seriesMax (colOf dayData "windgusts_10m_max")))),
       ("percentile_90", SVal.num (oR (seriesQuantile (colOf dayData "windgusts_10m_max") 0.90)))])]
   else []) ++
  (if dayData.columns.contains "weathercode" then
    match seriesModeFirst (colOf dayData "weathercode") with
    | some m =>
      let code := intTrunc m
      [("weather_code",
        [("most_common", SVal.int code),
         ("description", SVal.str ((WEATHER_CODE_DESCRIPTION.lookup code).getD "Unknown")),
         ("category", SVal.str (get_weather_code_category code))])]
    | none => []
   else []) ++
  (if dayData.columns.contains "AODANA" then
    let aodMean := seriesMean (colOf dayData "AODANA")
    [("air_quality",
      [("aod_mean", SVal.num (oR aodMean)),
       ("aod_max", SVal.num (oR (seriesMax (colOf dayData "AODANA")))),
       ("level", SVal.str (get_air_quality_level aodMean))])]
   else []) ++
  (if dayData.columns.contains "BCSMASS" then
    [("black_carbon",
      [("mean", SVal.num (oR (seriesMean (colOf dayData "BCSMASS")))),
       ("max", SVal.num (oR (seriesMax (colOf dayData "BCSMASS")))),
       ("percentile_90", SVal.num (oR (seriesQuantile (colOf dayData "BCSMASS") 0.90)))])]
   else []) ++
  (if dayData.columns.contains "DUSMASS" then
    [("dust",
      [("mean", SVal.num (oR (seriesMean (colOf dayData "DUSMASS")))),
       ("max", SVal.num (oR (seriesMax (colOf dayData "DUSMASS")))),
       ("percentile_90", SVal.num (oR (seriesQuantile (colOf dayData "DUSMASS") 0.90)))])]
   else []) ++
  (if dayData.columns.contains "cape" then
    let capeMean := seriesMean (colOf dayData "cape")
    [("thunderstorm",
      [("cape_mean", SVal.num (oR capeMean)),
       ("cape_max", SVal.num (oR (seriesMax (colOf dayData "cape")))),
       ("risk_level", SVal.str (get_thunderstorm_risk capeMean))])]
   else [])

/-- Leap year test of the Gregorian calendar. -/
def isLeap (y : ℕ) : Bool :=
  (y % 4 == 0 && y % 100 != 0) || y % 400 == 0

/-- Month lengths of a year. -/
def monthLengths (leap : Bool) : List ℕ :=
  [31, if leap then 29 else 28, 31, 30, 31, 30, 31, 31, 30, 31, 30, 31]

/-- Days in a year. -/
def daysInYear (y : ℕ) : ℕ :=
  if isLeap y then 366 else 365

/-- English month names, as `strftime('%B')` prints them. -/
def monthNames : List String :=
  ["January", "February", "March", "April", "May", "June", "July", "August",
   "September", "October", "November", "December"]

/-- Walks whole years forward from `y` while `rem` days remain; every step
consumes at least 365 days, so `rem` steps of fuel always suffice. -/
def resolveYearFuel : ℕ → ℕ → ℕ → ℕ × ℕ
  | 0, y, rem => (y, rem)
  | fuel + 1, y, rem =>
    if daysInYear y ≤ rem then resolveYearFuel fuel (y + 1) (rem - daysInYear y) else (y, rem)

/-- From a count of days past 2024-01-01 to (year, zero-based day of year). -/
def resolveYear (rem : ℕ) : ℕ × ℕ :=
  resolveYearFuel rem 2024 rem

/-- Walks months: from a zero-based day index within a year to (month index,
zero-based day within month). -/
def splitMonths : List ℕ → ℕ → ℕ × ℕ
  | [], rem => (0, rem)
  | m :: ms, rem =>
    if rem < m then (0, rem)
    else
      let p := splitMonths ms (rem - m)
      (p.1 + 1, p.2)

/-- `StatisticalAnalyzer._day_to_date_string`:
`datetime(2024, 1, 1) + Timedelta(day_of_year - 1)` printed as `'%B %d'`
(modelled for `day_of_year ≥ 1`; day 0 would land in December 2023). -/
def day_to_date_string (day_of_year : ℕ) : String :=
  let p := resolveYear (day_of_year - 1)
  let q := splitMonths (monthLengths (isLeap p.1)) p.2
  (monthNames.getD q.1 "") ++ " " ++ (if q.2 + 1 < 10 then "0" else "") ++ toString (q.2 + 1)

/-- The dictionary `analyze_day` returns: the explicit error dictionary for a
day with no historical rows, or the full report. -/
inductive DayReport where
  | errorReport (error : String) (day_of_year : ℕ) : DayReport
  | report (day_of_year : ℕ) (date_example : String)
      (probabilities : List (String × ℚ)) (statistics : Stats)
      (data_points : ℕ) : DayReport

/-- `StatisticalAnalyzer.analyze_day`: filters the rows of the requested
day-of-year, returns the explicit error dictionary when none remain, else
accumulates the per-category probabilities (a raising analyzer propagates as
a Python exception, the `Except.error` case) and the statistics. -/
noncomputable def analyze_day (data : Frame) (day_of_year : ℕ) : Except String DayReport := do
  let dayRows := data.rows.filter (fun r => decide (cellOf r "day_of_year" = some ((day_of_year : ℕ) : ℚ)))
  let dayData : Frame := ⟨data.columns, dayRows⟩
  if dayRows.length = 0 then
    return .errorReport ("Нет данных для дня " ++ toString day_of_year) day_of_year
  let mut probabilities : List (String × ℚ) := []
  if dayData.columns.contains "T2M_MAX" && dayData.columns.contains "T2M_MIN" then
    let temp_probs ← analyze_temperature dayData
    probabilities := probabilities ++ temp_probs
  if dayData.columns.contains "PRECTOTCORR" then
    let precip_probs ← analyze_precipitation dayData
    probabilities := probabilities ++ precip_probs
  if dayData.columns.contains "WS2M" then
    let wind_probs ← analyze_wind dayData
    probabilities := probabilities ++ wind_probs
  if dayData.columns.contains "T2M" && dayData.columns.contains "RH2M" then
    let comfort_probs ← analyze_comfort dayData
    probabilities := probabilities ++ comfort_probs
  if dayData.columns.contains "CLOUD_AMT" then
    probabilities := probabilities ++ analyze_cloudiness dayData
  if dayData.columns.contains "ALLSKY_SFC_UV_INDEX" then
    probabilities := probabilities ++ analyze_uv_index dayData
  if dayData.columns.contains "PS" then
    probabilities := probabilities ++ analyze_pressure dayData
  if dayData.columns.contains "SNODP" then
    probabilities := probabilities ++ analyze_snow dayData
  let apparent_temp_probs := analyze_apparent_temperature dayData
  if !apparent_temp_probs.isEmpty then
    probabilities := probabilities ++ apparent_temp_probs
  let weather_probs := analyze_weather_conditions dayData
  if !weather_probs.isEmpty then
    probabilities := probabilities ++ weather_probs
  let gust_probs := analyze_wind_gusts dayData
  if !gust_probs.isEmpty then
    probabilities := probabilities ++ gust_probs
  let air_quality_probs := analyze_air_quality dayData
  if !air_quality_probs.isEmpty then
    probabilities := probabilities ++ air_quality_probs
  let thunderstorm_probs := analyze_thunderstorm_risk dayData
  if !thunderstorm_probs.isEmpty then
    probabilities := probabilities ++ thunderstorm_probs
  let statistics := calculate_statistics dayData
  return .report day_of_year (day_to_date_string day_of_year) probabilities statistics dayRows.length

/-- The dictionary `get_summary_probabilities` returns: the full analysis'
error dictionary passed through, or the reduced summary. -/
inductive SummaryResult where
  | errorReport (error : String) (day_of_year : ℕ) : SummaryResult
  | summary (day_of_year : ℕ) (date_example : String)
      (probabilities : List (String × ℚ)) (statistics : Stats) : SummaryResult

/-- `StatisticalAnalyzer.get_summary_probabilities`: runs the full analysis,
passes an error dictionary through, else keeps only the eight headline
categories (`probs.get(key, 0.0)`) and the full statistics. -/
noncomputable def get_summary_probabilities (data : Frame) (day_of_year : ℕ) :
    Except String SummaryResult := do
  let full ← analyze_day data day_of_year
  match full with
  | .errorReport e d => return .errorReport e d
  | .report d de probs stats _ =>
    return .summary d de
      [("very_cold", (probs.lookup "very_cold").getD 0.0),
       ("cold", (probs.lookup "cold").getD 0.0),
       ("comfortable", (probs.lookup "comfortable").getD 0.0),
       ("hot", (probs.lookup "hot").getD 0.0),
       ("very_hot", (probs.lookup "very_hot").getD 0.0),
       ("very_wet", (probs.lookup "very_wet").getD 0.0),
       ("very_windy", (probs.lookup "very_windy").getD 0.0),
       ("very_uncomfortable", (probs.lookup "very_uncomfortable").getD 0.0)]
      stats

/-! ## Concrete inputs used by witnesses and counterexamples -/

/-- A single source frame whose temperature series has mean 20. -/
def oneSourceFrame : Frame := ⟨["T2M"], [[("T2M", some 20)]]⟩

/-- A one-row frame for day 3, used to query a different day. -/
def noRowsFrame : Frame := ⟨["day_of_year", "T2M"], [[("day_of_year", some 3), ("T2M", some 20)]]⟩

/-- A one-row frame for day 1 carrying max/min temperature — the smallest
input that drives `analyze_day` into `_analyze_temperature`. -/
def c3Frame : Frame :=
  ⟨["day_of_year", "T2M_MAX", "T2M_MIN"],
   [[("day_of_year", some 1), ("T2M_MAX", some 20), ("T2M_MIN", some 10)]]⟩

/-- A source frame whose temperature mean is −1. -/
def cexFrameA : Frame := ⟨["T2M"], [[("T2M", some (-1))]]⟩

/-- A source frame whose temperature mean is 1. -/
def cexFrameB : Frame := ⟨["T2M"], [[("T2M", some 1)]]⟩

/-- First frame of a two-source input with identical means. -/
def wtnFrameA : Frame := ⟨["T2M"], [[("T2M", some 10)]]⟩

/-- Second frame of a two-source input with identical means. -/
def wtnFrameB : Frame := ⟨["T2M"], [[("T2M", some 10)]]⟩

/-- First source frame of the two-source scenario: nasa_power reports mean 20.0. -/
def scnFrameA : Frame := ⟨["T2M"], [[("T2M", some 20)]]⟩

/-- Second source frame of the two-source scenario: openmeteo reports mean 22.0. -/
def scnFrameB : Frame := ⟨["T2M"], [[("T2M", some 22)]]⟩

/-- The two-source scenario input: the primary and a secondary source with
means 20 and 22. -/
def scenarioData : List (String × Frame) := [("nasa_power", scnFrameA), ("openmeteo", scnFrameB)]

/-- An input with one historical row for day 2 that carries temperature
columns, on which the analyzer raises. -/
def c8CrashFrame : Frame :=
  ⟨["day_of_year", "T2M_MAX", "T2M_MIN"],
   [[("day_of_year", some 2), ("T2M_MAX", some 30), ("T2M_MIN", some 20)]]⟩

/-- One row for day 1 carrying only a CAPE column, a frame on which
`analyze_day` succeeds. -/
def capeFrame : Frame := ⟨["day_of_year", "cape"], [[("day_of_year", some 1), ("cape", some 100)]]⟩

/-! ## Helper lemmas -/

theorem pyLt_some_some (a b : ℚ) : pyLt (some a) (some b) = decide (a < b) := rfl

theorem determine_confidence_one_cases (a : Option ℝ) :
    determine_confidence 1 a = "low" ∨ determine_confidence 1 a = "very_low" := by
  unfold determine_confidence
  rw [if_neg (by rintro ⟨h, _⟩; omega), if_neg (by rintro ⟨h, _⟩; omega)]
  by_cases h : 1 ≤ 1 ∧ gtNaN a 0.50
  · rw [if_pos h]
    exact Or.inl rfl
  · rw [if_neg h]
    exact Or.inr rfl

theorem filter_pos_of_nonempty (vbs : List (String × List ℚ))
    (h : ∀ p ∈ vbs, p.2 ≠ []) :
    vbs.filter (fun p => 0 < p.2.length) = vbs := by
  apply List.filter_eq_self.mpr
  intro p hp
  simpa using List.length_pos.mpr (h p hp)

theorem consensus_noSources_of_no_contributor (data : List (String × Frame)) (parameter : String)
    (h : (valuesBySource data parameter).filter (fun p => 0 < p.2.length) = []) :
    calculate_consensus data parameter = .noSources := by
  simp only [calculate_consensus]
  by_cases hv : (valuesBySource data parameter).isEmpty
  · rw [if_pos hv]
  · rw [if_neg hv, if_pos (by simp [h])]

theorem consensus_result_of_contributor (data : List (String × Frame)) (parameter : String)
    (h : (valuesBySource data parameter).filter (fun p => 0 < p.2.length) ≠ []) :
    calculate_consensus data parameter = consensusFull (valuesBySource data parameter) := by
  simp only [calculate_consensus]
  rw [if_neg (by
      intro hv
      exact h (by simp [List.isEmpty_iff.mp hv]))]
  rw [if_neg (by simpa [List.isEmpty_iff] using h)]

theorem consensusFull_sources_used (vbs : List (String × List ℚ)) :
    (consensusFull vbs).sources_used =
      (vbs.filter (fun p => 0 < p.2.length)).map (fun p => p.1) := rfl

theorem consensusFull_confidence (vbs : List (String × List ℚ)) :
    (consensusFull vbs).confidence =
      determine_confidence ((vbs.filter (fun p => 0 < p.2.length)).map (fun p => p.1)).length
        (calculate_agreement (vbs.map (fun p => seriesMean (p.2.map some)))) := rfl

theorem consensusFull_agreement (vbs : List (String × List ℚ)) :
    (consensusFull vbs).agreement_level =
      calculate_agreement (vbs.map (fun p => seriesMean (p.2.map some))) := rfl

theorem consensusFull_value (vbs : List (String × List ℚ)) :
    (consensusFull vbs).value =
      some (((vbs.filter (fun p => 0 < p.2.length)).map
          (fun p => ((seriesMean (p.2.map some)).getD 0) * sourceWeight p.1)).sum /
        ((vbs.filter (fun p => 0 < p.2.length)).map (fun p => sourceWeight p.1)).sum) := rfl

theorem consensusFull_keys (vbs : List (String × List ℚ)) :
    (consensusFull vbs).keys =
      ["value", "confidence", "confidence_interval", "sources_used",
       "agreement_level", "source_values", "std_deviation"] := rfl

/-! ## Claim theorems -/

/-- C7: `calculate_heat_index` returns the input temperature unchanged when
t < 27 °C or humidity < 40 %, and `calculate_wind_chill` (as modelled from the
intended formula, the source line being a SyntaxError) returns it unchanged
when t > 10 °C or wind speed < 1.3 m/s. -/
theorem heat_index_wind_chill_guards :
    (∀ t h : ℚ, (t < 27 ∨ h < 40) → calculate_heat_index t h = t) ∧
    (∀ t w : ℚ, (10 < t ∨ w < 1.3) → calculate_wind_chill t w = (t : ℝ)) := by
  constructor
  · intro t h hth
    unfold calculate_heat_index
    rw [if_pos hth]
  · intro t w htw
    unfold calculate_wind_chill
    rw [if_pos htw]

/-- C9: `get_thunderstorm_risk` is total over the CAPE value and returns one
of the seven labels; it returns "none" exactly on strictly negative CAPE, so
CAPE = 0 is classified "very_low". -/
theorem thunderstorm_risk_classification (c : ℚ) :
    get_thunderstorm_risk (some c) ∈
      ["none", "very_low", "low", "moderate", "high", "very_high", "extreme"] ∧
    (get_thunderstorm_risk (some c) = "none" ↔ c < 0) ∧
    get_thunderstorm_risk (some 0) = "very_low" := by
  have e0 : cfgVal THUNDERSTORM_THRESHOLDS "none" = 0 := rfl
  refine ⟨?_, ?_, by with_unfolding_all rfl⟩
  · unfold get_thunderstorm_risk
    split_ifs <;> simp
  · unfold get_thunderstorm_risk
    constructor
    · intro hn
      split_ifs at hn with h1 h2 h3 h4 h5 h6
      · rw [e0] at h1
        simpa [pyLt] using h1
      all_goals simp at hn
    · intro hc
      rw [if_pos (by rw [e0]; simpa [pyLt] using hc)]

/-- C5: whenever exactly one source contributes, the consensus confidence is
"low" or "very_low", never "high" or "medium". -/
theorem single_source_confidence_low (data : List (String × Frame)) (parameter : String)
    (h1 : (calculate_consensus data parameter).sources_used.length = 1) :
    (calculate_consensus data parameter).confidence = "low" ∨
    (calculate_consensus data parameter).confidence = "very_low" := by
  by_cases hc : (valuesBySource data parameter).filter (fun p => 0 < p.2.length) = []
  · rw [consensus_noSources_of_no_contributor data parameter hc] at h1
    simp [ConsensusResult.sources_used] at h1
  · rw [consensus_result_of_contributor data parameter hc] at h1 ⊢
    rw [consensusFull_sources_used] at h1
    rw [consensusFull_confidence, h1]
    exact determine_confidence_one_cases _

theorem single_source_confidence_witness :
    (calculate_consensus [("nasa_power", oneSourceFrame)] "temperature").confidence = "low" ∨
    (calculate_consensus [("nasa_power", oneSourceFrame)] "temperature").confidence = "very_low" :=
  single_source_confidence_low [("nasa_power", oneSourceFrame)] "temperature"
    (by with_unfolding_all rfl)

/-- C10: a consensus with no contributing source returns exactly the four-key
dictionary value/confidence/sources_used/agreement_level — the
confidence_interval, source_values and std_deviation keys of the full result
are absent. -/
theorem zero_source_result_keys (data : List (String × Frame)) (parameter : String)
    (h : (calculate_consensus data parameter).sources_used = []) :
    (calculate_consensus data parameter).keys =
      ["value", "confidence", "sources_used", "agreement_level"] := by
  by_cases hc : (valuesBySource data parameter).filter (fun p => 0 < p.2.length) = []
  · rw [consensus_noSources_of_no_contributor data parameter hc]
    rfl
  · rw [consensus_result_of_contributor data parameter hc] at h
    rw [consensusFull_sources_used] at h
    exact absurd (List.map_eq_nil_iff.mp h) hc

/-- C10 witness: the empty multi-source input yields the four-key result. -/
theorem zero_source_result_keys_witness :
    (calculate_consensus [] "temperature").keys =
      ["value", "confidence", "sources_used", "agreement_level"] :=
  zero_source_result_keys [] "temperature" (by with_unfolding_all rfl)

/-- C6: a day-of-year with zero historical rows gets the explicit error
dictionary (with the day number), not an exception and no probabilities. -/
theorem analyze_day_insufficient_data (data : Frame) (day : ℕ)
    (h : data.rows.filter (fun r => decide (cellOf r "day_of_year" = some ((day : ℕ) : ℚ))) = []) :
    analyze_day data day = .ok (.errorReport ("Нет данных для дня " ++ toString day) day) := by
  unfold analyze_day
  rw [h]
  rfl

theorem analyze_day_insufficient_data_witness :
    analyze_day noRowsFrame 5 = .ok (.errorReport ("Нет данных для дня " ++ toString 5) 5) :=
  analyze_day_insufficient_data noRowsFrame 5 (by with_unfolding_all rfl)

/-- C3: with one historical row for the day and temperature columns present,
`analyze_day` does not return a probability report at all — the threshold
subscript `TEMPERATURE_THRESHOLDS['very_hot']['absolute_min']` indexes a plain
int and raises TypeError. -/
theorem analyze_day_temperature_typeerror :
    (c3Frame.rows.filter (fun r => decide (cellOf r "day_of_year" = some ((1 : ℕ) : ℚ)))).length = 1 ∧
    analyze_day c3Frame 1 = .error "TypeError: int is not subscriptable" :=
  ⟨by with_unfolding_all rfl, by with_unfolding_all rfl⟩

/-- C4 counterexample: with zero contributing sources the returned
agreement_level is the literal 0.0 of the early-return dictionary, not the 1.0
the claim states for fewer than 2 contributing sources. -/
theorem agreement_zero_sources_counterexample :
    (calculate_consensus [] "temperature").agreement_level = some 0 ∧
    (calculate_consensus [] "temperature").value = none ∧
    (calculate_consensus [] "temperature").confidence = "none" ∧
    ((0 : ℝ) ≠ 1) :=
  ⟨by with_unfolding_all rfl, by with_unfolding_all rfl, by with_unfolding_all rfl, by norm_num⟩

/-- C4 amended: with exactly one carrying source whose series is non-empty the
agreement_level is 1.0; with zero contributing sources the result has value
None, confidence "none" and agreement_level 0.0. -/
theorem agreement_few_sources_amended (data : List (String × Frame)) (parameter : String) :
    ((valuesBySource data parameter).length = 1 →
      (∀ p ∈ valuesBySource data parameter, p.2 ≠ []) →
      (calculate_consensus data parameter).agreement_level = some 1) ∧
    ((calculate_consensus data parameter).sources_used = [] →
      (calculate_consensus data parameter).value = none ∧
      (calculate_consensus data parameter).confidence = "none" ∧
      (calculate_consensus data parameter).agreement_level = some 0) := by
  constructor
  · intro h1 hall
    have hfi := filter_pos_of_nonempty _ hall
    have hc : (valuesBySource data parameter).filter (fun p => 0 < p.2.length) ≠ [] := by
      rw [hfi]
      intro hnil
      rw [hnil] at h1
      simp at h1
    rw [consensus_result_of_contributor data parameter hc, consensusFull_agreement]
    unfold calculate_agreement
    rw [if_pos (by simp [h1])]
  · intro h0
    by_cases hc : (valuesBySource data parameter).filter (fun p => 0 < p.2.length) = []
    · rw [consensus_noSources_of_no_contributor data parameter hc]
      exact ⟨rfl, rfl, rfl⟩
    · rw [consensus_result_of_contributor data parameter hc, consensusFull_sources_used] at h0
      exact absurd (List.map_eq_nil_iff.mp h0) hc

theorem dropna_map_some (l : List ℚ) : dropna (l.map some) = l := by
  induction l with
  | nil => rfl
  | cons a t ih =>
    simp only [dropna, List.map_cons, List.filterMap_cons] at ih ⊢
    rw [ih]
    rfl

theorem seriesMean_map_some (l : List ℚ) (h : l ≠ []) :
    seriesMean (l.map some) = some (listMean l) := by
  unfold seriesMean listMean
  rw [dropna_map_some]
  rw [if_neg (fun hz => h (List.length_eq_zero.mp hz))]

theorem sum_of_all_eq (l : List ℚ) (c : ℚ) (h : ∀ x ∈ l, x = c) :
    l.sum = l.length * c := by
  induction l with
  | nil => simp
  | cons a t ih =>
    simp only [List.sum_cons, List.length_cons]
    rw [h a (by simp), ih (fun x hx => h x (by simp [hx]))]
    push_cast
    ring

theorem listMean_of_all_eq (l : List ℚ) (c : ℚ) (hne : l ≠ []) (h : ∀ x ∈ l, x = c) :
    listMean l = c := by
  unfold listMean
  rw [sum_of_all_eq l c h]
  have hl : ((l.length : ℚ)) ≠ 0 := by
    exact_mod_cast (List.length_pos.mpr hne).ne'
  field_simp

theorem listVar_nonneg (xs : List ℚ) : 0 ≤ listVar xs := by
  unfold listVar
  apply div_nonneg
  · apply List.sum_nonneg
    intro x hx
    obtain ⟨y, _, rfl⟩ := List.mem_map.mp hx
    positivity
  · positivity

theorem listVar_eq_zero_iff (xs : List ℚ) (h : xs ≠ []) :
    listVar xs = 0 ↔ ∀ x ∈ xs, ∀ y ∈ xs, x = y := by
  have hn : (0 : ℚ) < (xs.length : ℚ) := by exact_mod_cast List.length_pos.mpr h
  unfold listVar
  rw [div_eq_zero_iff]
  constructor
  · rintro (hs | hl)
    · have hnn : ∀ y ∈ xs.map (fun x => (x - listMean xs) ^ 2), 0 ≤ y := by
        intro y hy
        obtain ⟨z, _, rfl⟩ := List.mem_map.mp hy
        positivity
      have hall : ∀ x ∈ xs, x = listMean xs := by
        intro x hx
        have hle := List.single_le_sum hnn _
          (List.mem_map_of_mem (fun x => (x - listMean xs) ^ 2) hx)
        have hsq : (x - listMean xs) ^ 2 = 0 :=
          le_antisymm (hs ▸ hle) (by positivity)
        have hz := pow_eq_zero_iff two_ne_zero |>.mp hsq
        linarith [sub_eq_zero.mp hz]
      intro x hx y hy
      rw [hall x hx, hall y hy]
    · exact absurd hl hn.ne'
  · intro hp
    left
    rcases xs with _ | ⟨a, t⟩
    · simp
    · have hall : ∀ x ∈ a :: t, x = a := fun x hx => hp x hx a (by simp)
      have hm : listMean (a :: t) = a := listMean_of_all_eq _ a (by simp) hall
      apply List.sum_eq_zero
      intro y hy
      obtain ⟨z, hz, rfl⟩ := List.mem_map.mp hy
      rw [hall z hz, hm]
      ring

theorem allSome_map_means (vbs : List (String × List ℚ)) (h : ∀ p ∈ vbs, p.2 ≠ []) :
    allSome (vbs.map (fun p => seriesMean (p.2.map some))) =
      some (vbs.map (fun p => listMean p.2)) := by
  induction vbs with
  | nil => rfl
  | cons a t ih =>
    simp only [List.map_cons]
    rw [seriesMean_map_some a.2 (h a (by simp))]
    simp only [allSome]
    rw [ih (fun p hp => h p (by simp [hp]))]
    rfl

/-- C2 counterexample: two contributing sources whose means are −1 and 1 —
different means, yet the zero cross-source mean makes `_calculate_agreement`
return 1.0, refuting "agreement_level = 1.0 exactly when all source means are
identical". -/
theorem agreement_zero_mean_counterexample :
    (calculate_consensus [("nasa_power", cexFrameA), ("openmeteo", cexFrameB)]
        "temperature").sources_used = ["nasa_power", "openmeteo"] ∧
    (calculate_consensus [("nasa_power", cexFrameA), ("openmeteo", cexFrameB)]
        "temperature").source_values = [("nasa_power", some (-1)), ("openmeteo", some 1)] ∧
    ((-1 : ℚ) ≠ 1) ∧
    (calculate_consensus [("nasa_power", cexFrameA), ("openmeteo", cexFrameB)]
        "temperature").agreement_level = some 1 :=
  ⟨by with_unfolding_all rfl, by with_unfolding_all rfl, by norm_num,
   by with_unfolding_all rfl⟩

/-- C2 amended: when every carrying source has a non-empty series and at least
2 sources contribute, the agreement level is a defined value in [0, 1], and it
equals 1.0 exactly when all source means are identical or their cross-source
mean is exactly zero. -/
theorem agreement_range_amended (data : List (String × Frame)) (parameter : String)
    (hfull : ∀ p ∈ valuesBySource data parameter, p.2 ≠ [])
    (h2 : 2 ≤ (calculate_consensus data parameter).sources_used.length) :
    ∃ a : ℝ, (calculate_consensus data parameter).agreement_level = some a ∧
      0 ≤ a ∧ a ≤ 1 ∧
      (a = 1 ↔
        (∀ x ∈ (valuesBySource data parameter).map (fun p => listMean p.2),
          ∀ y ∈ (valuesBySource data parameter).map (fun p => listMean p.2), x = y) ∨
        listMean ((valuesBySource data parameter).map (fun p => listMean p.2)) = 0) := by
  have hfi := filter_pos_of_nonempty _ hfull
  by_cases hc : (valuesBySource data parameter).filter (fun p => 0 < p.2.length) = []
  · rw [consensus_noSources_of_no_contributor data parameter hc] at h2
    simp [ConsensusResult.sources_used] at h2
  · rw [consensus_result_of_contributor data parameter hc] at h2 ⊢
    rw [consensusFull_sources_used, hfi] at h2
    rw [consensusFull_agreement]
    have hlenv : 2 ≤ (valuesBySource data parameter).length := by simpa using h2
    have hmsne : (valuesBySource data parameter).map (fun p => listMean p.2) ≠ [] := by
      intro hnil
      rw [List.map_eq_nil_iff.mp hnil] at hlenv
      simp at hlenv
    unfold calculate_agreement
    rw [if_neg (by simp only [List.length_map]; omega)]
    rw [allSome_map_means _ hfull]
    set ms := (valuesBySource data parameter).map (fun p => listMean p.2) with hms
    show ∃ a : ℝ, (if listMean ms = 0 then some (1 : ℝ)
        else some (Real.exp
          (-2 * (Real.sqrt ((listVar ms : ℚ) : ℝ) / |((listMean ms : ℚ) : ℝ)|)))) = some a ∧
      0 ≤ a ∧ a ≤ 1 ∧ (a = 1 ↔ (∀ x ∈ ms, ∀ y ∈ ms, x = y) ∨ listMean ms = 0)
    by_cases hm : listMean ms = 0
    · exact ⟨1, by rw [if_pos hm], by norm_num, le_refl 1, by simp [hm]⟩
    · refine ⟨Real.exp (-2 * (Real.sqrt ((listVar ms : ℚ) : ℝ) / |((listMean ms : ℚ) : ℝ)|)),
        by rw [if_neg hm], (Real.exp_pos _).le, ?_, ?_⟩
      · rw [Real.exp_le_one_iff]
        have hd : (0 : ℝ) ≤ Real.sqrt ((listVar ms : ℚ) : ℝ) / |((listMean ms : ℚ) : ℝ)| :=
          div_nonneg (Real.sqrt_nonneg _) (abs_nonneg _)
        nlinarith
      · rw [Real.exp_eq_one_iff]
        have habs : (0 : ℝ) < |((listMean ms : ℚ) : ℝ)| := abs_pos.mpr (by exact_mod_cast hm)
        constructor
        · intro h0
          have hx0 : Real.sqrt ((listVar ms : ℚ) : ℝ) / |((listMean ms : ℚ) : ℝ)| = 0 := by
            rcases mul_eq_zero.mp h0 with hz | hz
            · norm_num at hz
            · exact hz
          have hs0 : Real.sqrt ((listVar ms : ℚ) : ℝ) = 0 := by
            rcases div_eq_zero_iff.mp hx0 with hz | hz
            · exact hz
            · exact absurd hz habs.ne'
          have hvar : listVar ms = 0 := by
            have hcast := (Real.sqrt_eq_zero (by exact_mod_cast listVar_nonneg ms)).mp hs0
            exact_mod_cast hcast
          exact Or.inl ((listVar_eq_zero_iff ms hmsne).mp hvar)
        · rintro (hall | hm0)
          · have hvar : listVar ms = 0 := (listVar_eq_zero_iff ms hmsne).mpr hall
            rw [hvar]
            push_cast
            rw [Real.sqrt_zero]
            simp
          · exact absurd hm0 hm

theorem agreement_range_witness :
    ∃ a : ℝ, (calculate_consensus [("nasa_power", wtnFrameA), ("openmeteo", wtnFrameB)]
        "temperature").agreement_level = some a ∧
      0 ≤ a ∧ a ≤ 1 ∧
      (a = 1 ↔
        (∀ x ∈ (valuesBySource [("nasa_power", wtnFrameA), ("openmeteo", wtnFrameB)]
            "temperature").map (fun p => listMean p.2),
          ∀ y ∈ (valuesBySource [("nasa_power", wtnFrameA), ("openmeteo", wtnFrameB)]
            "temperature").map (fun p => listMean p.2), x = y) ∨
        listMean ((valuesBySource [("nasa_power", wtnFrameA), ("openmeteo", wtnFrameB)]
            "temperature").map (fun p => listMean p.2)) = 0) :=
  agreement_range_amended [("nasa_power", wtnFrameA), ("openmeteo", wtnFrameB)] "temperature"
    (by decide) (by with_unfolding_all decide)

/-- C1 counterexample: the configured weights are 1.0 (nasa_power) and 0.85
(openmeteo), not 0.95/0.85, so the consensus over means 20.0 and 22.0 is
(20·1.0 + 22·0.85)/1.85 = 774/37 = 20.9189..., not the claimed
(20·0.95 + 22·0.85)/1.8 = 377/18 = 20.944... . -/
theorem consensus_scenario_value_counterexample :
    (calculate_consensus scenarioData "temperature").source_values =
      [("nasa_power", some 20), ("openmeteo", some 22)] ∧
    (calculate_consensus scenarioData "temperature").value = some (774 / 37) ∧
    ((774 / 37 : ℚ) ≠ 377 / 18) ∧
    sourceWeight "nasa_power" = 1 ∧ ((1 : ℚ) ≠ 0.95) :=
  ⟨by with_unfolding_all rfl, by with_unfolding_all rfl, by norm_num,
   by with_unfolding_all rfl, by norm_num⟩

/-- C1 amended: the consensus value is the reliability-weighted mean
Σ(weight·mean)/Σ(weight) over exactly the contributing sources, with the
weights of the configured table (nasa_power 1.0, openmeteo 0.85, ...); for the
two-source scenario with means 20.0 and 22.0 the value is 774/37, the
agreement level exp(−2/21) ≈ 0.909 and the confidence "medium". -/
theorem consensus_weighted_mean_amended :
    (∀ (data : List (String × Frame)) (parameter : String),
      (valuesBySource data parameter).filter (fun p => 0 < p.2.length) ≠ [] →
      (calculate_consensus data parameter).value =
        some ((((valuesBySource data parameter).filter (fun p => 0 < p.2.length)).map
            (fun p => listMean p.2 * sourceWeight p.1)).sum /
          (((valuesBySource data parameter).filter (fun p => 0 < p.2.length)).map
            (fun p => sourceWeight p.1)).sum) ∧
      (calculate_consensus data parameter).sources_used =
        ((valuesBySource data parameter).filter (fun p => 0 < p.2.length)).map (fun p => p.1)) ∧
    ((calculate_consensus scenarioData "temperature").value = some (774 / 37) ∧
     (calculate_consensus scenarioData "temperature").agreement_level =
       some (Real.exp (-(2 / 21) : ℝ)) ∧
     (calculate_consensus scenarioData "temperature").confidence = "medium") := by
  constructor
  · intro data parameter hc
    rw [consensus_result_of_contributor data parameter hc]
    refine ⟨?_, consensusFull_sources_used _⟩
    rw [consensusFull_value]
    have hcong : ∀ p ∈ (valuesBySource data parameter).filter (fun p => 0 < p.2.length),
        ((seriesMean (p.2.map some)).getD 0) * sourceWeight p.1 =
          listMean p.2 * sourceWeight p.1 := by
      intro p hp
      have hne : p.2 ≠ [] := by
        have hmem := List.of_mem_filter hp
        simp only [decide_eq_true_eq] at hmem
        exact List.ne_nil_of_length_pos hmem
      rw [seriesMean_map_some p.2 hne]
      rfl
    rw [List.map_congr_left hcong]
  · have hval : (calculate_consensus scenarioData "temperature").value = some (774 / 37) := by
      with_unfolding_all rfl
    have hag0 : (calculate_consensus scenarioData "temperature").agreement_level =
        calculate_agreement [some 20, some 22] := by
      with_unfolding_all rfl
    have hagr : (calculate_consensus scenarioData "temperature").agreement_level =
        some (Real.exp (-(2 / 21) : ℝ)) := by
      rw [hag0]
      unfold calculate_agreement
      rw [if_neg (by norm_num)]
      have h2 : allSome [some (20 : ℚ), some 22] = some [20, 22] := rfl
      rw [h2]
      show (if listMean [(20 : ℚ), 22] = 0 then some (1 : ℝ)
        else some (Real.exp (-2 * (Real.sqrt ((listVar [(20 : ℚ), 22] : ℚ) : ℝ) /
          |((listMean [(20 : ℚ), 22] : ℚ) : ℝ)|)))) = some (Real.exp (-(2 / 21) : ℝ))
      rw [if_neg (by norm_num [listMean])]
      have hv : listVar [(20 : ℚ), 22] = 1 := by norm_num [listVar, listMean]
      have hm : listMean [(20 : ℚ), 22] = 21 := by norm_num [listMean]
      rw [hv, hm]
      congr 1
      push_cast
      rw [Real.sqrt_one, abs_of_pos (by norm_num)]
      norm_num
    refine ⟨hval, hagr, ?_⟩
    have hconf : (calculate_consensus scenarioData "temperature").confidence =
        determine_confidence 2
          ((calculate_consensus scenarioData "temperature").agreement_level) := by
      with_unfolding_all rfl
    rw [hconf, hagr]
    unfold determine_confidence
    rw [if_neg (by rintro ⟨h3, _⟩; omega)]
    rw [if_pos ⟨by omega, Real.exp (-(2 / 21) : ℝ), rfl, by
      have hb := Real.add_one_le_exp (-(2 / 21) : ℝ)
      nlinarith⟩]

/-- C8 counterexample: an input with one historical row for the day but
carrying temperature columns makes `get_summary_probabilities` propagate the
analyzer's TypeError instead of returning the eight headline categories. -/
theorem summary_crash_counterexample :
    (c8CrashFrame.rows.filter
      (fun r => decide (cellOf r "day_of_year" = some ((2 : ℕ) : ℚ)))).length = 1 ∧
    get_summary_probabilities c8CrashFrame 2 = .error "TypeError: int is not subscriptable" :=
  ⟨by with_unfolding_all rfl, by with_unfolding_all rfl⟩

/-- C8 amended: whenever `analyze_day` returns a report (does not raise and is
not the insufficient-data error), `get_summary_probabilities` is a pure
filtering wrapper: exactly the eight headline categories, each the full
report's entry (0.0 when absent), with the full report's statistics. -/
theorem summary_filtering_wrapper_amended (data : Frame) (day d n : ℕ) (de : String)
    (probs : List (String × ℚ)) (stats : Stats)
    (h : analyze_day data day = .ok (.report d de probs stats n)) :
    get_summary_probabilities data day = .ok (.summary d de
      [("very_cold", (probs.lookup "very_cold").getD 0.0),
       ("cold", (probs.lookup "cold").getD 0.0),
       ("comfortable", (probs.lookup "comfortable").getD 0.0),
       ("hot", (probs.lookup "hot").getD 0.0),
       ("very_hot", (probs.lookup "very_hot").getD 0.0),
       ("very_wet", (probs.lookup "very_wet").getD 0.0),
       ("very_windy", (probs.lookup "very_windy").getD 0.0),
       ("very_uncomfortable", (probs.lookup "very_uncomfortable").getD 0.0)] stats) := by
  unfold get_summary_probabilities
  rw [h]
  rfl

theorem summary_filtering_wrapper_witness :
    get_summary_probabilities capeFrame 1 = .ok (.summary 1 "January 01"
      [("very_cold", 0), ("cold", 0), ("comfortable", 0), ("hot", 0), ("very_hot", 0),
       ("very_wet", 0), ("very_windy", 0), ("very_uncomfortable", 0)]
      [("thunderstorm",
        [("cape_mean", SVal.num (some ((100 : ℚ) : ℝ))),
         ("cape_max", SVal.num (some ((100 : ℚ) : ℝ))),
         ("risk_level", SVal.str "very_low")])]) := by
  have h := summary_filtering_wrapper_amended capeFrame 1 1 1 "January 01"
    [("thunderstorm_none", 1), ("thunderstorm_very_low", 0), ("thunderstorm_low", 0),
     ("thunderstorm_moderate", 0), ("thunderstorm_high", 0), ("thunderstorm_very_high", 0),
     ("thunderstorm_extreme", 0)]
    [("thunderstorm",
      [("cape_mean", SVal.num (some ((100 : ℚ) : ℝ))),
       ("cape_max", SVal.num (some ((100 : ℚ) : ℝ))),
       ("risk_level", SVal.str "very_low")])]
    (by with_unfolding_all rfl)
  exact h.trans (by with_unfolding_all rfl)

end NasaHack
